import Mathlib

/-!
Window/context lifecycle and frame loop of `sampleWindow.cpp`.

A shallow embedding of `src/sampleWindow.cpp`.  The program is a straight line
of calls into GLFW, glad and OpenGL around one `while` loop, so the embedding
is a state-passing interpreter whose state carries the ordered log of the
calls issued by `main` (with the values the library returned), a second log
for the calls issued by the resize callback while the library runs it, the
part of the library state the program reads back (the close flag), the
viewport rectangle last handed to `glViewport`, and the status passed to
`exit`.

Everything the libraries decide is taken from an environment `Env`:
what `glfwInit` and `glfwCreateWindow` return, what each `glfwPollEvents`
delivers, and what each `glfwGetKey` returns.
-/

namespace SampleWindow

/-! ## Constants -/

/-- Source line 5: `#define WND_WIDTH 800`. -/
def WND_WIDTH : Int := 800

/-- Source line 6: `#define WND_HEIGHT 600`. -/
def WND_HEIGHT : Int := 600

/-- The null pointer; window handles are modelled as addresses. -/
def NULL : Nat := 0

/-- Value of `GLFW_FALSE` in `GLFW/glfw3.h`; `glfwInit` is compared with it. -/
def GLFW_FALSE : Int := 0

/-- Value of `GLFW_PRESS` in `GLFW/glfw3.h`; `glfwGetKey` is compared with it. -/
def GLFW_PRESS : Int := 1

/-- Header constants that the program only passes through to the libraries;
they are kept symbolic. -/
inductive Sym
  | GLFW_CONTEXT_VERSION_MAJOR
  | GLFW_CONTEXT_VERSION_MINOR
  | GLFW_OPENGL_PROFILE
  | GLFW_OPENGL_CORE_PROFILE
  | GL_COLOR_BUFFER_BIT
  | GLFW_KEY_ESCAPE
  deriving DecidableEq, Repr

/-- An integer argument that is either a literal or a header constant. -/
inductive Arg
  | num (n : Int)
  | sym (s : Sym)
  deriving DecidableEq, Repr

/-- A decimal literal of the source, kept as written: `digits / 10 ^ places`.
`0.07f` is `⟨7, 2⟩` and `1.0f` is `⟨10, 1⟩`.  Rounding to binary32 is not
modelled; the literal is only passed through to `glClearColor`. -/
structure Decimal where
  digits : Nat
  places : Nat
  deriving DecidableEq, Repr

/-- The functions of the program whose address is handed to GLFW. -/
inductive Callback
  | framebuffer_size_callback
  deriving DecidableEq, Repr

/-! ## Calls and state -/

/-- One call issued by the program, with its arguments and, where the program
reads it, the value that came back. -/
inductive Call
  | glfwInit (ret : Int)
  | glfwWindowHint (hint : Sym) (value : Arg)
  | glfwCreateWindow (width height : Int) (title : String) (monitor share : Nat) (ret : Nat)
  | glfwMakeContextCurrent (window : Nat)
  | glfwSetFramebufferSizeCallback (window : Nat) (callback : Callback)
  | gladLoadGL
  | glViewport (x y width height : Int)
  | glfwWindowShouldClose (window : Nat) (ret : Bool)
  | glfwGetKey (window : Nat) (key : Sym) (ret : Int)
  | glfwSetWindowShouldClose (window : Nat) (value : Bool)
  | glClearColor (red green blue alpha : Decimal)
  | glClear (mask : Sym)
  | glfwSwapBuffers (window : Nat)
  | glfwPollEvents
  | glfwDestroyWindow (window : Nat)
  | glfwTerminate
  | perror (message : String)
  | exit (status : Int)
  deriving DecidableEq, Repr

/-- The viewport rectangle, as handed to `glViewport`. -/
structure Rect where
  x : Int
  y : Int
  width : Int
  height : Int
  deriving DecidableEq, Repr

/-- What one `glfwPollEvents` delivers: the framebuffer sizes reported by
resize events, in order, and what the event system does to the close flag
(`none`: nothing, `some b`: it leaves the flag at `b`). -/
structure Events where
  resizes : List (Int × Int)
  close : Option Bool

/-- Everything the libraries and the user decide during one run. -/
structure Env where
  /-- value returned by `glfwInit` -/
  glfwInit : Int
  /-- handle returned by `glfwCreateWindow` (`NULL` on failure) -/
  glfwCreateWindow : Nat
  /-- close flag of the window when it has just been created -/
  closeFlag : Bool
  /-- what the `i`-th `glfwPollEvents` of the frame loop delivers -/
  glfwPollEvents : Nat → Events
  /-- Escape key state returned by `glfwGetKey` in the `i`-th iteration -/
  glfwGetKey : Nat → Int

/-- Program and library state.  `trace` lists, oldest first, the calls issued
by the running function (`main`, or a function under test); `nested` lists
the calls issued by callbacks that the library ran from inside
`glfwPollEvents`; `viewport` is the rectangle of the last `glViewport`
(clamping or rejection by the GL itself is not modelled); `closeFlag` is the
close flag of the window; `resizeCallback` is the registered framebuffer-size
callback; `exitStatus` is the argument of `exit` once the process has
exited. -/
structure State where
  trace : List Call
  nested : List Call
  viewport : Option Rect
  closeFlag : Bool
  resizeCallback : Option Callback
  exitStatus : Option Int

/-- State at process start. -/
def State.start : State :=
  { trace := [], nested := [], viewport := none, closeFlag := false, resizeCallback := none,
    exitStatus := none }

/-- Log one call. -/
def State.call (s : State) (c : Call) : State :=
  { s with trace := s.trace ++ [c] }

/-! ## Library calls with an effect on the modelled state -/

/-- `glViewport(x, y, width, height)`: logged, and the rectangle becomes the
active viewport. -/
def glViewport (x y width height : Int) (s : State) : State :=
  { s.call (.glViewport x y width height) with viewport := some ⟨x, y, width, height⟩ }

/-- `glfwSetWindowShouldClose(window, value)`: logged, and the flag is set. -/
def glfwSetWindowShouldClose (window : Nat) (value : Bool) (s : State) : State :=
  { s.call (.glfwSetWindowShouldClose window value) with closeFlag := value }

/-- `glfwSetFramebufferSizeCallback(window, cb)`: logged, and `cb` is registered. -/
def glfwSetFramebufferSizeCallback (window : Nat) (cb : Callback) (s : State) : State :=
  { s.call (.glfwSetFramebufferSizeCallback window cb) with resizeCallback := some cb }

/-- `exit(status)`: logged; the process is gone afterwards. -/
def exit (status : Int) (s : State) : State :=
  { s.call (.exit status) with exitStatus := some status }

/-! ## The functions of the program -/

/-- Source lines 8-12: `perror(message); exit(-1);`. -/
def fatalError (message : String) (s : State) : State :=
  exit (-1) (s.call (.perror message))

/-- Source lines 53-56: `glViewport(0, 0, width, height);`. -/
def framebuffer_size_callback (_window : Nat) (width height : Int) (s : State) : State :=
  glViewport 0 0 width height s

/-- Source lines 58-62, called in iteration `i`:
`if (glfwGetKey(window, GLFW_KEY_ESCAPE) == GLFW_PRESS)
   glfwSetWindowShouldClose(window, true);`. -/
def processInput (env : Env) (i : Nat) (window : Nat) (s : State) : State :=
  let key := env.glfwGetKey i
  let s := s.call (.glfwGetKey window .GLFW_KEY_ESCAPE key)
  if key = GLFW_PRESS then glfwSetWindowShouldClose window true s else s

/-- The library delivering one framebuffer-size event while it is inside
`glfwPollEvents`: the registered callback runs.  The calls the callback
issues are not calls of `main`; they are moved from `trace` to `nested`. -/
def dispatchResize (window : Nat) (s : State) (size : Int × Int) : State :=
  match s.resizeCallback with
  | none => s
  | some .framebuffer_size_callback =>
    let s' := framebuffer_size_callback window size.1 size.2 s
    { s' with trace := s.trace, nested := s.nested ++ s'.trace.drop s.trace.length }

/-- `glfwPollEvents()` of iteration `i`: logged, the resize events are
delivered to the callback, and the event system may move the close flag. -/
def glfwPollEvents (env : Env) (i : Nat) (window : Nat) (s : State) : State :=
  let ev := env.glfwPollEvents i
  let s := (ev.resizes).foldl (dispatchResize window) (s.call .glfwPollEvents)
  { s with closeFlag := (ev.close).getD s.closeFlag }

/-- Source lines 40-44, the loop body after the (optional) input step. -/
def renderFrame (env : Env) (i : Nat) (window : Nat) (s : State) : State :=
  let s := s.call (.glClearColor ⟨7, 2⟩ ⟨13, 2⟩ ⟨17, 2⟩ ⟨10, 1⟩)
  let s := s.call (.glClear .GL_COLOR_BUFFER_BIT)
  let s := s.call (.glfwSwapBuffers window)
  glfwPollEvents env i window s

/-- Source lines 36-45: `while (!glfwWindowShouldClose(window)) { ... }`.
`input` tells whether line 38, `processInput(window);`, is compiled in; the
source has it commented out.  `i` counts the iterations already done.  The
result pairs the state with `true` when the loop condition has turned false
(the loop has exited) and with `false` when the fuel ran out first. -/
def frameLoop (input : Bool) (env : Env) (window : Nat) : Nat → Nat → State → State × Bool
  | 0, _, s => (s, false)
  | fuel + 1, i, s =>
    let close := s.closeFlag
    let s := s.call (.glfwWindowShouldClose window close)
    if close then (s, true)
    else
      let s := if input then processInput env i window s else s
      frameLoop input env window fuel (i + 1) (renderFrame env i window s)

/-- Source lines 17-51 with the loop bounded by `fuel` checks of its
condition.  `input` is as in `frameLoop`. -/
def mainWith (input : Bool) (env : Env) (fuel : Nat) : State :=
  let s := State.start.call (.glfwInit env.glfwInit)
  if env.glfwInit = GLFW_FALSE then fatalError "Failed to init GLFW.\n" s
  else
    let s := s.call (.glfwWindowHint .GLFW_CONTEXT_VERSION_MAJOR (.num 3))
    let s := s.call (.glfwWindowHint .GLFW_CONTEXT_VERSION_MINOR (.num 3))
    let s := s.call (.glfwWindowHint .GLFW_OPENGL_PROFILE (.sym .GLFW_OPENGL_CORE_PROFILE))
    let window := env.glfwCreateWindow
    let s := s.call (.glfwCreateWindow WND_WIDTH WND_HEIGHT "LearneOpenGL" NULL NULL window)
    if window = NULL then fatalError "Failed to init GLFW.\n" s
    else
      -- the new window comes with its close flag as the environment has it
      let s := { s with closeFlag := env.closeFlag }
      let s := s.call (.glfwMakeContextCurrent window)
      let s := glfwSetFramebufferSizeCallback window .framebuffer_size_callback s
      let s := s.call .gladLoadGL
      let s := glViewport 0 0 WND_WIDTH WND_HEIGHT s
      match frameLoop input env window fuel 0 s with
      | (s, false) => s
      | (s, true) =>
        let s := s.call (.glfwDestroyWindow window)
        let s := s.call .glfwTerminate
        exit 0 s

/-- The program as compiled: line 38 is a comment. -/
def main (env : Env) (fuel : Nat) : State :=
  mainWith false env fuel

/-! ## Vocabulary for the statements -/

/-- The close flag as the `k`-th check of the loop condition reads it when
the program itself never writes the flag (line 38 disabled): the flag of the
new window, moved only by the event system during the polls before. -/
def checkValue (env : Env) : Nat → Bool
  | 0 => env.closeFlag
  | k + 1 => ((env.glfwPollEvents k).close).getD (checkValue env k)

/-- The calls of lines 19-34 on a successful start, in order. -/
def setupCalls (env : Env) : List Call :=
  [ .glfwInit env.glfwInit,
    .glfwWindowHint .GLFW_CONTEXT_VERSION_MAJOR (.num 3),
    .glfwWindowHint .GLFW_CONTEXT_VERSION_MINOR (.num 3),
    .glfwWindowHint .GLFW_OPENGL_PROFILE (.sym .GLFW_OPENGL_CORE_PROFILE),
    .glfwCreateWindow 800 600 "LearneOpenGL" 0 0 env.glfwCreateWindow,
    .glfwMakeContextCurrent env.glfwCreateWindow,
    .glfwSetFramebufferSizeCallback env.glfwCreateWindow .framebuffer_size_callback,
    .gladLoadGL,
    .glViewport 0 0 800 600 ]

/-- The four calls of one pass through the loop body (lines 40-44). -/
def frameCalls (window : Nat) : List Call :=
  [ .glClearColor ⟨7, 2⟩ ⟨13, 2⟩ ⟨17, 2⟩ ⟨10, 1⟩,
    .glClear .GL_COLOR_BUFFER_BIT,
    .glfwSwapBuffers window,
    .glfwPollEvents ]

/-- The log of `n` iterations: each is a check that returned `false`
followed by the loop body. -/
def iterations (window : Nat) (n : Nat) : List Call :=
  (List.replicate n (Call.glfwWindowShouldClose window false :: frameCalls window)).flatten

/-- The calls of lines 47-50. -/
def shutdownCalls (window : Nat) : List Call :=
  [ .glfwDestroyWindow window, .glfwTerminate, .exit 0 ]

/-- The window a call operates on, for the calls that take one. -/
def usesWindow : Call → Option Nat
  | .glfwMakeContextCurrent w => some w
  | .glfwSetFramebufferSizeCallback w _ => some w
  | .glfwWindowShouldClose w _ => some w
  | .glfwGetKey w _ _ => some w
  | .glfwSetWindowShouldClose w _ => some w
  | .glfwSwapBuffers w => some w
  | .glfwDestroyWindow w => some w
  | _ => none

/-- Calls into the windowing library (the `glfw*` functions). -/
def isWindowing : Call → Bool
  | .glfwInit _ => true
  | .glfwWindowHint _ _ => true
  | .glfwCreateWindow _ _ _ _ _ _ => true
  | .glfwMakeContextCurrent _ => true
  | .glfwSetFramebufferSizeCallback _ _ => true
  | .glfwWindowShouldClose _ _ => true
  | .glfwGetKey _ _ _ => true
  | .glfwSetWindowShouldClose _ _ => true
  | .glfwSwapBuffers _ => true
  | .glfwPollEvents => true
  | .glfwDestroyWindow _ => true
  | .glfwTerminate => true
  | _ => false

/-- Calls into the graphics API and its loader (`gl*`, `gladLoadGL`). -/
def isGraphics : Call → Bool
  | .gladLoadGL => true
  | .glViewport _ _ _ _ => true
  | .glClearColor _ _ _ _ => true
  | .glClear _ => true
  | _ => false

/-- Calls that create a window. -/
def isCreateWindow : Call → Bool
  | .glfwCreateWindow _ _ _ _ _ _ => true
  | _ => false

/-- The calls issued by `framebuffer_size_callback` in the course of the
first `k` polls: one `glViewport(0, 0, width, height)` for each resize event
delivered, in order. -/
def nestedCalls (env : Env) : Nat → List Call
  | 0 => []
  | k + 1 => nestedCalls env k ++
      ((env.glfwPollEvents k).resizes).map (fun size => Call.glViewport 0 0 size.1 size.2)

/-- Calls that destroy a window. -/
def isDestroyWindow : Call → Bool
  | .glfwDestroyWindow _ => true
  | _ => false

/-- The shutdown call of the windowing library. -/
def isTerminate : Call → Bool
  | .glfwTerminate => true
  | _ => false

/-- Checks of the loop condition. -/
def isShouldClose : Call → Bool
  | .glfwWindowShouldClose _ _ => true
  | _ => false

/-- The state in which `main` enters the frame loop. -/
def loopEntry (env : Env) : State :=
  glViewport 0 0 WND_WIDTH WND_HEIGHT
    ((glfwSetFramebufferSizeCallback env.glfwCreateWindow .framebuffer_size_callback
      (({ ((((State.start.call (.glfwInit env.glfwInit)).call
          (.glfwWindowHint .GLFW_CONTEXT_VERSION_MAJOR (.num 3))).call
          (.glfwWindowHint .GLFW_CONTEXT_VERSION_MINOR (.num 3))).call
          (.glfwWindowHint .GLFW_OPENGL_PROFILE (.sym .GLFW_OPENGL_CORE_PROFILE))).call
          (.glfwCreateWindow WND_WIDTH WND_HEIGHT "LearneOpenGL" NULL NULL env.glfwCreateWindow)
          with closeFlag := env.closeFlag } : State).call
        (.glfwMakeContextCurrent env.glfwCreateWindow))).call .gladLoadGL)

/-! ## Sample environments -/

/-- Nothing happens during a poll. -/
def quietEvents : Events := { resizes := [], close := none }

/-- A successful start; the event system raises the close flag during the
`n`-th poll (counting from 0) and delivers one resize to 400 x 300 in the
poll before that. -/
def closeAt (n : Nat) : Env :=
  { glfwInit := 1, glfwCreateWindow := 4096, closeFlag := false,
    glfwPollEvents := fun i =>
      if i = n then { resizes := [], close := some true }
      else if i + 1 = n then { resizes := [(400, 300)], close := none }
      else quietEvents,
    glfwGetKey := fun _ => 0 }

/-- `glfwInit` fails. -/
def initFails : Env :=
  { glfwInit := 0, glfwCreateWindow := 4096, closeFlag := false,
    glfwPollEvents := fun _ => quietEvents, glfwGetKey := fun _ => 0 }

/-- `glfwInit` succeeds and `glfwCreateWindow` returns `NULL`. -/
def createFails : Env :=
  { glfwInit := 1, glfwCreateWindow := 0, closeFlag := false,
    glfwPollEvents := fun _ => quietEvents, glfwGetKey := fun _ => 0 }

/-- Escape is reported as pressed in iteration `n` only; the event system
never touches the close flag. -/
def escapeAt (n : Nat) : Env :=
  { glfwInit := 1, glfwCreateWindow := 4096, closeFlag := false,
    glfwPollEvents := fun _ => quietEvents,
    glfwGetKey := fun i => if i = n then 1 else 0 }

/-! ## State lemmas -/

@[simp] theorem call_trace (s : State) (c : Call) : (s.call c).trace = s.trace ++ [c] := rfl
@[simp] theorem call_closeFlag (s : State) (c : Call) : (s.call c).closeFlag = s.closeFlag := rfl
@[simp] theorem call_exitStatus (s : State) (c : Call) : (s.call c).exitStatus = s.exitStatus := rfl
@[simp] theorem call_viewport (s : State) (c : Call) : (s.call c).viewport = s.viewport := rfl
@[simp] theorem call_resizeCallback (s : State) (c : Call) :
    (s.call c).resizeCallback = s.resizeCallback := rfl

theorem dispatchResize_fields (window : Nat) (s : State) (size : Int × Int) :
    (dispatchResize window s size).trace = s.trace ∧
    (dispatchResize window s size).closeFlag = s.closeFlag ∧
    (dispatchResize window s size).exitStatus = s.exitStatus ∧
    (dispatchResize window s size).resizeCallback = s.resizeCallback := by
  unfold dispatchResize
  cases h : s.resizeCallback with
  | none => simp [h]
  | some cb => cases cb; simp [framebuffer_size_callback, glViewport, h]

theorem foldl_dispatchResize_fields (window : Nat) (sizes : List (Int × Int)) (s : State) :
    (sizes.foldl (dispatchResize window) s).trace = s.trace ∧
    (sizes.foldl (dispatchResize window) s).closeFlag = s.closeFlag ∧
    (sizes.foldl (dispatchResize window) s).exitStatus = s.exitStatus ∧
    (sizes.foldl (dispatchResize window) s).resizeCallback = s.resizeCallback := by
  induction sizes generalizing s with
  | nil => simp
  | cons e rest ih =>
    obtain ⟨h1, h2, h3, h4⟩ := dispatchResize_fields window s e
    obtain ⟨i1, i2, i3, i4⟩ := ih (dispatchResize window s e)
    simp only [List.foldl_cons]
    exact ⟨i1.trans h1, i2.trans h2, i3.trans h3, i4.trans h4⟩

@[simp] theorem glfwPollEvents_trace (env : Env) (i window : Nat) (s : State) :
    (glfwPollEvents env i window s).trace = s.trace ++ [Call.glfwPollEvents] := by
  simp [glfwPollEvents, (foldl_dispatchResize_fields window _ _).1]

@[simp] theorem glfwPollEvents_closeFlag (env : Env) (i window : Nat) (s : State) :
    (glfwPollEvents env i window s).closeFlag = ((env.glfwPollEvents i).close).getD s.closeFlag := by
  simp [glfwPollEvents, (foldl_dispatchResize_fields window _ _).2.1]

@[simp] theorem glfwPollEvents_exitStatus (env : Env) (i window : Nat) (s : State) :
    (glfwPollEvents env i window s).exitStatus = s.exitStatus := by
  simp [glfwPollEvents, (foldl_dispatchResize_fields window _ _).2.2.1]

@[simp] theorem renderFrame_trace (env : Env) (i window : Nat) (s : State) :
    (renderFrame env i window s).trace = s.trace ++ frameCalls window := by
  simp [renderFrame, frameCalls]

@[simp] theorem renderFrame_closeFlag (env : Env) (i window : Nat) (s : State) :
    (renderFrame env i window s).closeFlag = ((env.glfwPollEvents i).close).getD s.closeFlag := by
  simp [renderFrame]

@[simp] theorem renderFrame_exitStatus (env : Env) (i window : Nat) (s : State) :
    (renderFrame env i window s).exitStatus = s.exitStatus := by
  simp [renderFrame]

theorem iterations_succ (window n : Nat) :
    iterations window (n + 1) =
      Call.glfwWindowShouldClose window false :: frameCalls window ++ iterations window n := by
  simp [iterations, List.replicate_succ]

/-! ## The frame loop as compiled (line 38 disabled) -/

/-- While every check so far reads `false`, the loop uses up its fuel: one
iteration per unit. -/
theorem frameLoop_running (env : Env) (window : Nat) :
    ∀ (fuel i : Nat) (s : State), s.closeFlag = checkValue env i →
      (∀ k, k < fuel → checkValue env (i + k) = false) →
      (frameLoop false env window fuel i s).2 = false ∧
      (frameLoop false env window fuel i s).1.trace = s.trace ++ iterations window fuel ∧
      (frameLoop false env window fuel i s).1.exitStatus = s.exitStatus := by
  intro fuel
  induction fuel with
  | zero => intro i s _ _; simp [frameLoop, iterations]
  | succ f ih =>
    intro i s hs hall
    have h0 : s.closeFlag = false := by rw [hs]; simpa using hall 0 (Nat.succ_pos f)
    have hnext : (renderFrame env i window
        (s.call (.glfwWindowShouldClose window false))).closeFlag = checkValue env (i + 1) := by
      simp [checkValue, hs]
    have hall2 : ∀ k, k < f → checkValue env (i + 1 + k) = false := by
      intro k hk
      have := hall (k + 1) (by omega)
      rwa [show i + 1 + k = i + (k + 1) by omega]
    obtain ⟨r1, r2, r3⟩ := ih (i + 1) _ hnext hall2
    simp only [frameLoop, h0, Bool.false_eq_true, if_false]
    refine ⟨r1, ?_, ?_⟩
    · rw [r2, iterations_succ]; simp
    · rw [r3]; simp

/-- When the `n`-th check is the first to read `true` and the fuel reaches
it, the loop exits there after exactly `n` iterations. -/
theorem frameLoop_exits (env : Env) (window : Nat) :
    ∀ (n fuel i : Nat) (s : State), s.closeFlag = checkValue env i →
      (∀ k, k < n → checkValue env (i + k) = false) →
      checkValue env (i + n) = true → n < fuel →
      (frameLoop false env window fuel i s).2 = true ∧
      (frameLoop false env window fuel i s).1.trace =
        s.trace ++ iterations window n ++ [Call.glfwWindowShouldClose window true] ∧
      (frameLoop false env window fuel i s).1.exitStatus = s.exitStatus := by
  intro n
  induction n with
  | zero =>
    intro fuel i s hs _ htrue hlt
    obtain ⟨f, rfl⟩ : ∃ f, fuel = f + 1 := ⟨fuel - 1, by omega⟩
    have h0 : s.closeFlag = true := by rw [hs]; simpa using htrue
    simp [frameLoop, h0, iterations]
  | succ m ih =>
    intro fuel i s hs hall htrue hlt
    obtain ⟨f, rfl⟩ : ∃ f, fuel = f + 1 := ⟨fuel - 1, by omega⟩
    have h0 : s.closeFlag = false := by rw [hs]; simpa using hall 0 (Nat.succ_pos m)
    have hnext : (renderFrame env i window
        (s.call (.glfwWindowShouldClose window false))).closeFlag = checkValue env (i + 1) := by
      simp [checkValue, hs]
    have hall2 : ∀ k, k < m → checkValue env (i + 1 + k) = false := by
      intro k hk
      have := hall (k + 1) (by omega)
      rwa [show i + 1 + k = i + (k + 1) by omega]
    have htrue2 : checkValue env (i + 1 + m) = true := by
      rwa [show i + 1 + m = i + (m + 1) by omega]
    obtain ⟨r1, r2, r3⟩ := ih f (i + 1) _ hnext hall2 htrue2 (by omega)
    simp only [frameLoop, h0, Bool.false_eq_true, if_false]
    refine ⟨r1, ?_, ?_⟩
    · rw [r2, iterations_succ]; simp
    · rw [r3]; simp

/-! ## Calls issued by the resize callback during polls -/

@[simp] theorem call_nested (s : State) (c : Call) : (s.call c).nested = s.nested := rfl

theorem foldl_dispatchResize_nested (window : Nat) (sizes : List (Int × Int)) (s : State)
    (h : s.resizeCallback = some Callback.framebuffer_size_callback) :
    (sizes.foldl (dispatchResize window) s).nested =
      s.nested ++ sizes.map (fun size => Call.glViewport 0 0 size.1 size.2) := by
  induction sizes generalizing s with
  | nil => simp
  | cons e rest ih =>
    have h2 : (dispatchResize window s e).resizeCallback =
        some Callback.framebuffer_size_callback := by
      rw [(dispatchResize_fields window s e).2.2.2, h]
    have h3 : (dispatchResize window s e).nested =
        s.nested ++ [Call.glViewport 0 0 e.1 e.2] := by
      simp [dispatchResize, h, framebuffer_size_callback, glViewport]
    simp only [List.foldl_cons, List.map_cons]
    rw [ih _ h2, h3]
    simp

theorem renderFrame_nested (env : Env) (i window : Nat) (s : State)
    (h : s.resizeCallback = some Callback.framebuffer_size_callback) :
    (renderFrame env i window s).nested = s.nested ++
      ((env.glfwPollEvents i).resizes).map (fun size => Call.glViewport 0 0 size.1 size.2) ∧
    (renderFrame env i window s).resizeCallback =
      some Callback.framebuffer_size_callback := by
  constructor
  · simp only [renderFrame, glfwPollEvents]
    rw [foldl_dispatchResize_nested window _ _ (by simpa using h)]
    simp
  · simp only [renderFrame, glfwPollEvents]
    rw [(foldl_dispatchResize_fields window _ _).2.2.2]
    simpa using h

/-- After the loop has exited at its `n`-th check, the callback has issued
the calls of the `n` polls made. -/
theorem frameLoop_exits_nested (env : Env) (window : Nat) :
    ∀ (n fuel i : Nat) (s : State), s.closeFlag = checkValue env i →
      (∀ k, k < n → checkValue env (i + k) = false) →
      checkValue env (i + n) = true → n < fuel →
      s.resizeCallback = some Callback.framebuffer_size_callback →
      s.nested = nestedCalls env i →
      (frameLoop false env window fuel i s).1.nested = nestedCalls env (i + n) := by
  intro n
  induction n with
  | zero =>
    intro fuel i s hs _ htrue hlt _ hn
    obtain ⟨f, rfl⟩ : ∃ f, fuel = f + 1 := ⟨fuel - 1, by omega⟩
    have h0 : s.closeFlag = true := by rw [hs]; simpa using htrue
    simp [frameLoop, h0, hn]
  | succ m ih =>
    intro fuel i s hs hall htrue hlt hcb hn
    obtain ⟨f, rfl⟩ : ∃ f, fuel = f + 1 := ⟨fuel - 1, by omega⟩
    have h0 : s.closeFlag = false := by rw [hs]; simpa using hall 0 (Nat.succ_pos m)
    have hnext : (renderFrame env i window
        (s.call (.glfwWindowShouldClose window false))).closeFlag = checkValue env (i + 1) := by
      simp [checkValue, hs]
    have hall2 : ∀ k, k < m → checkValue env (i + 1 + k) = false := by
      intro k hk
      have := hall (k + 1) (by omega)
      rwa [show i + 1 + k = i + (k + 1) by omega]
    have htrue2 : checkValue env (i + 1 + m) = true := by
      rwa [show i + 1 + m = i + (m + 1) by omega]
    obtain ⟨q1, q2⟩ := renderFrame_nested env i window
      (s.call (.glfwWindowShouldClose window false)) (by simpa using hcb)
    have hn2 : (renderFrame env i window
        (s.call (.glfwWindowShouldClose window false))).nested = nestedCalls env (i + 1) := by
      rw [q1]; simp [nestedCalls, hn]
    have := ih f (i + 1) _ hnext hall2 htrue2 (by omega) q2 hn2
    simp only [frameLoop, h0, Bool.false_eq_true, if_false]
    rw [this, show i + 1 + m = i + (m + 1) by omega]

/-! ## Whole runs of `main` -/

theorem main_initFails (env : Env) (fuel : Nat) (h : env.glfwInit = GLFW_FALSE) :
    (main env fuel).trace =
      [Call.glfwInit GLFW_FALSE, Call.perror "Failed to init GLFW.\n", Call.exit (-1)] ∧
    (main env fuel).exitStatus = some (-1) := by
  simp [main, mainWith, h, fatalError, exit, State.start]

theorem main_createFails (env : Env) (fuel : Nat) (h1 : env.glfwInit ≠ GLFW_FALSE)
    (h2 : env.glfwCreateWindow = NULL) :
    (main env fuel).trace =
      [Call.glfwInit env.glfwInit,
       Call.glfwWindowHint .GLFW_CONTEXT_VERSION_MAJOR (.num 3),
       Call.glfwWindowHint .GLFW_CONTEXT_VERSION_MINOR (.num 3),
       Call.glfwWindowHint .GLFW_OPENGL_PROFILE (.sym .GLFW_OPENGL_CORE_PROFILE),
       Call.glfwCreateWindow 800 600 "LearneOpenGL" 0 0 NULL,
       Call.perror "Failed to init GLFW.\n", Call.exit (-1)] ∧
    (main env fuel).exitStatus = some (-1) := by
  simp [main, mainWith, h1, h2, fatalError, exit, State.start, WND_WIDTH, WND_HEIGHT, NULL]

theorem loopEntry_fields (env : Env) :
    (loopEntry env).trace = setupCalls env ∧ (loopEntry env).closeFlag = checkValue env 0 ∧
    (loopEntry env).exitStatus = none := by
  simp [loopEntry, glViewport, glfwSetFramebufferSizeCallback, State.start, setupCalls,
    checkValue, WND_WIDTH, WND_HEIGHT, NULL]

theorem mainWith_of_startup (input : Bool) (env : Env) (fuel : Nat)
    (h1 : env.glfwInit ≠ GLFW_FALSE) (h2 : env.glfwCreateWindow ≠ NULL) :
    mainWith input env fuel =
      match frameLoop input env env.glfwCreateWindow fuel 0 (loopEntry env) with
      | (s, false) => s
      | (s, true) =>
        exit 0 ((s.call (.glfwDestroyWindow env.glfwCreateWindow)).call .glfwTerminate) := by
  simp [mainWith, h1, h2, loopEntry]

theorem main_running (env : Env) (fuel : Nat)
    (h1 : env.glfwInit ≠ GLFW_FALSE) (h2 : env.glfwCreateWindow ≠ NULL)
    (hall : ∀ k, k < fuel → checkValue env k = false) :
    (main env fuel).trace = setupCalls env ++ iterations env.glfwCreateWindow fuel ∧
    (main env fuel).exitStatus = none := by
  obtain ⟨e1, e2, e3⟩ := loopEntry_fields env
  obtain ⟨r1, r2, r3⟩ := frameLoop_running env env.glfwCreateWindow fuel 0 (loopEntry env) e2
    (by simpa using hall)
  rw [main, mainWith_of_startup false env fuel h1 h2]
  generalize frameLoop false env env.glfwCreateWindow fuel 0 (loopEntry env) = r at r1 r2 r3
  obtain ⟨s, b⟩ := r
  simp only at r1 r2 r3
  subst r1
  simp [r2, r3, e1, e3]

theorem main_exits (env : Env) (n fuel : Nat)
    (h1 : env.glfwInit ≠ GLFW_FALSE) (h2 : env.glfwCreateWindow ≠ NULL)
    (hall : ∀ k, k < n → checkValue env k = false) (htrue : checkValue env n = true)
    (hlt : n < fuel) :
    (main env fuel).trace =
      setupCalls env ++ iterations env.glfwCreateWindow n ++
        Call.glfwWindowShouldClose env.glfwCreateWindow true ::
          shutdownCalls env.glfwCreateWindow ∧
    (main env fuel).exitStatus = some 0 := by
  obtain ⟨e1, e2, e3⟩ := loopEntry_fields env
  obtain ⟨r1, r2, r3⟩ := frameLoop_exits env env.glfwCreateWindow n fuel 0 (loopEntry env) e2
    (by simpa using hall) (by simpa using htrue) hlt
  rw [main, mainWith_of_startup false env fuel h1 h2]
  generalize frameLoop false env env.glfwCreateWindow fuel 0 (loopEntry env) = r at r1 r2 r3
  obtain ⟨s, b⟩ := r
  simp only at r1 r2 r3
  subst r1
  simp [r2, e1, exit, shutdownCalls]

theorem main_exits_nested (env : Env) (n fuel : Nat)
    (h1 : env.glfwInit ≠ GLFW_FALSE) (h2 : env.glfwCreateWindow ≠ NULL)
    (hall : ∀ k, k < n → checkValue env k = false) (htrue : checkValue env n = true)
    (hlt : n < fuel) :
    (main env fuel).nested = nestedCalls env n := by
  obtain ⟨-, e2, -⟩ := loopEntry_fields env
  obtain ⟨r1, -, -⟩ := frameLoop_exits env env.glfwCreateWindow n fuel 0 (loopEntry env) e2
    (by simpa using hall) (by simpa using htrue) hlt
  have r4 := frameLoop_exits_nested env env.glfwCreateWindow n fuel 0 (loopEntry env) e2
    (by simpa using hall) (by simpa using htrue) hlt rfl rfl
  rw [main, mainWith_of_startup false env fuel h1 h2]
  generalize frameLoop false env env.glfwCreateWindow fuel 0 (loopEntry env) = r at r1 r4
  obtain ⟨s, b⟩ := r
  simp only at r1 r4
  subst r1
  simpa [exit] using r4

/-- Within any number of checks, either all read `false` or there is a first
one that reads `true`. -/
theorem checks_dichotomy (env : Env) (fuel : Nat) :
    (∀ k, k < fuel → checkValue env k = false) ∨
    ∃ n, n < fuel ∧ (∀ k, k < n → checkValue env k = false) ∧ checkValue env n = true := by
  induction fuel with
  | zero => left; intro k hk; omega
  | succ f ih =>
    rcases ih with hall | ⟨n, hn, hfalse, htrue⟩
    · cases hf : checkValue env f with
      | false =>
        left; intro k hk
        rcases Nat.lt_succ_iff_lt_or_eq.mp hk with h | h
        · exact hall k h
        · rw [h]; exact hf
      | true => right; exact ⟨f, Nat.lt_succ_self f, hall, hf⟩
    · right; exact ⟨n, Nat.lt_succ_of_lt hn, hfalse, htrue⟩

theorem mem_iterations {window n : Nat} {c : Call} (h : c ∈ iterations window n) :
    c = Call.glfwWindowShouldClose window false ∨ c ∈ frameCalls window := by
  simp only [iterations, List.mem_flatten, List.mem_replicate] at h
  obtain ⟨l, ⟨_, rfl⟩, hc⟩ := h
  simpa using hc

/-! ## List splitting and the shape of runs -/

theorem split_cases {α : Type} (A B pre post : List α) (c : α)
    (h : A ++ B = pre ++ c :: post) :
    c ∈ A ∨ ∃ t, pre = A ++ t ∧ B = t ++ c :: post := by
  rcases List.append_eq_append_iff.mp h with ⟨t, ht, hB⟩ | ⟨t, hA, hc⟩
  · exact Or.inr ⟨t, ht, hB⟩
  · cases t with
    | nil => exact Or.inr ⟨[], by simpa using hA.symm, by simpa using hc.symm⟩
    | cons x t =>
      simp only [List.cons_append, List.cons.injEq] at hc
      left; rw [hA, hc.1]; simp

theorem split_strong {α : Type} (A B pre post : List α) (c : α)
    (h : A ++ B = pre ++ c :: post) :
    (∃ u, A = pre ++ c :: u) ∨ ∃ t, pre = A ++ t ∧ B = t ++ c :: post := by
  rcases List.append_eq_append_iff.mp h with ⟨t, ht, hB⟩ | ⟨t, hA, hc⟩
  · exact Or.inr ⟨t, ht, hB⟩
  · cases t with
    | nil => exact Or.inr ⟨[], by simpa using hA.symm, by simpa using hc.symm⟩
    | cons x t =>
      simp only [List.cons_append, List.cons.injEq] at hc
      left; exact ⟨t, by rw [hA, hc.1]⟩

theorem countP_iterations (p : Call → Bool) (window n : Nat)
    (h1 : p (Call.glfwWindowShouldClose window false) = false)
    (h2 : ∀ c ∈ frameCalls window, p c = false) :
    (iterations window n).countP p = 0 := by
  rw [List.countP_eq_zero]
  intro c hc
  rcases mem_iterations hc with rfl | h
  · simp [h1]
  · simp [h2 c h]

theorem filter_iterations (window n : Nat) :
    (iterations window n).filter (fun c => !isShouldClose c) =
      (List.replicate n (frameCalls window)).flatten := by
  induction n with
  | zero => simp [iterations]
  | succ k ih =>
    rw [iterations_succ, List.replicate_succ, List.flatten_cons, List.filter_append, ih]
    simp [isShouldClose, frameCalls]

/-- Shape of every run with a successful start: the setup, some number of
whole iterations, and then either nothing yet (fuel used up, every check so
far read `false`) or the check that read `true` and the shutdown calls. -/
theorem main_shape (env : Env) (fuel : Nat)
    (h1 : env.glfwInit ≠ GLFW_FALSE) (h2 : env.glfwCreateWindow ≠ NULL) :
    ∃ m tl, (main env fuel).trace =
        setupCalls env ++ (iterations env.glfwCreateWindow m ++ tl) ∧
      (∀ k, k < m → checkValue env k = false) ∧
      (tl = [] ∧ m = fuel ∧ (main env fuel).exitStatus = none ∨
       tl = Call.glfwWindowShouldClose env.glfwCreateWindow true ::
          shutdownCalls env.glfwCreateWindow ∧ m < fuel ∧ checkValue env m = true ∧
          (main env fuel).exitStatus = some 0) := by
  rcases checks_dichotomy env fuel with hall | ⟨n, hn, hfalse, htrue⟩
  · obtain ⟨ht, hs⟩ := main_running env fuel h1 h2 hall
    exact ⟨fuel, [], by rw [ht]; simp, hall, Or.inl ⟨rfl, rfl, hs⟩⟩
  · obtain ⟨ht, hs⟩ := main_exits env n fuel h1 h2 hfalse htrue hn
    exact ⟨n, _, by rw [ht]; simp, hfalse, Or.inr ⟨rfl, hn, htrue, hs⟩⟩

theorem mem_pre_of_split {α : Type} {A B pre post : List α} {c x : α}
    (h : A ++ B = pre ++ c :: post) (hc : c ∉ A) (hx : x ∈ A) : x ∈ pre := by
  rcases split_cases A B pre post c h with h | ⟨t, ht, _⟩
  · exact absurd h hc
  · rw [ht]; exact List.mem_append_left t hx

theorem mem_of_split {α : Type} {l pre post : List α} {c : α} (h : l = pre ++ c :: post) :
    c ∈ l := by
  rw [h]; simp

/-- Facts about the calls that follow the creation of the window in a run
with a successful start. -/
theorem after_create_facts (env : Env) (m : Nat) (c : Call)
    (hc : c ∈ (setupCalls env).drop 5 ++ iterations env.glfwCreateWindow m ++
      [Call.glfwWindowShouldClose env.glfwCreateWindow true]) :
    isDestroyWindow c = false ∧ isTerminate c = false ∧
    ∀ w, usesWindow c = some w → w = env.glfwCreateWindow := by
  simp only [List.mem_append, List.mem_singleton] at hc
  rcases hc with (hc | hc) | rfl
  · simp only [setupCalls, List.drop_succ_cons, List.drop_zero, List.mem_cons,
      List.mem_nil_iff, or_false] at hc
    rcases hc with rfl | rfl | rfl | rfl <;> simp [isDestroyWindow, isTerminate, usesWindow]
  · rcases mem_iterations hc with rfl | hc
    · simp [isDestroyWindow, isTerminate, usesWindow]
    · simp only [frameCalls, List.mem_cons, List.mem_nil_iff, or_false] at hc
      rcases hc with rfl | rfl | rfl | rfl <;> simp [isDestroyWindow, isTerminate, usesWindow]
  · simp [isDestroyWindow, isTerminate, usesWindow]

/-! ## The claims -/


/-- C1: for all integers `width`, `height`, every window handle and every
prior state, `framebuffer_size_callback` issues exactly one call, namely
`glViewport(0, 0, width, height)`, after which the active viewport is
`(0, 0, width, height)` whatever it was before, the rest of the state being
untouched; the call with `(400, 300)` leaves the viewport at
`(0, 0, 400, 300)`; and this is what the library runs for a resize event once
the callback is registered. -/
theorem C1_framebuffer_size_callback (window : Nat) (width height : Int) (s : State) :
    (framebuffer_size_callback window width height s).trace =
      s.trace ++ [Call.glViewport 0 0 width height] ∧
    (framebuffer_size_callback window width height s).viewport =
      some ⟨0, 0, width, height⟩ ∧
    (framebuffer_size_callback window 400 300 s).viewport = some ⟨0, 0, 400, 300⟩ ∧
    (framebuffer_size_callback window width height s).closeFlag = s.closeFlag ∧
    (framebuffer_size_callback window width height s).exitStatus = s.exitStatus ∧
    (s.resizeCallback = some Callback.framebuffer_size_callback →
      (dispatchResize window s (width, height)).viewport = some ⟨0, 0, width, height⟩ ∧
      (dispatchResize window s (width, height)).nested =
        s.nested ++ [Call.glViewport 0 0 width height]) := by
  refine ⟨rfl, rfl, rfl, rfl, rfl, ?_⟩
  intro h
  simp [dispatchResize, h, framebuffer_size_callback, glViewport]

/-- C1 at a state with a different viewport and the callback registered. -/
theorem C1_framebuffer_size_callback_witness :
    (framebuffer_size_callback 4096 400 300 (loopEntry (closeAt 0))).trace =
      (loopEntry (closeAt 0)).trace ++ [Call.glViewport 0 0 400 300] ∧
    (loopEntry (closeAt 0)).viewport = some ⟨0, 0, 800, 600⟩ ∧
    (framebuffer_size_callback 4096 400 300 (loopEntry (closeAt 0))).viewport =
      some ⟨0, 0, 400, 300⟩ ∧
    (dispatchResize 4096 (loopEntry (closeAt 0)) (400, 300)).viewport =
      some ⟨0, 0, 400, 300⟩ :=
  ⟨(C1_framebuffer_size_callback 4096 400 300 (loopEntry (closeAt 0))).1, rfl,
   (C1_framebuffer_size_callback 4096 400 300 (loopEntry (closeAt 0))).2.1,
   ((C1_framebuffer_size_callback 4096 400 300 (loopEntry (closeAt 0))).2.2.2.2.2 rfl).1⟩

/-- C2: when `glfwInit` returns `GLFW_FALSE`, every run of `main` consists of
exactly `glfwInit`, `perror` with the diagnostic, and `exit(-1)`: a
diagnostic is emitted, the exit status is non-zero (also modulo 2^8), no
window is created, and nothing after `glfwInit` is a windowing or graphics
call. -/
theorem C2_init_failure (env : Env) (fuel : Nat) (h : env.glfwInit = GLFW_FALSE) :
    (main env fuel).trace =
      [Call.glfwInit GLFW_FALSE, Call.perror "Failed to init GLFW.\n", Call.exit (-1)] ∧
    Call.perror "Failed to init GLFW.\n" ∈ (main env fuel).trace ∧
    (∃ status : Int, (main env fuel).exitStatus = some status ∧ status ≠ 0 ∧
      status % 256 ≠ 0) ∧
    (∀ c ∈ (main env fuel).trace, isCreateWindow c = false) ∧
    (∀ c ∈ ((main env fuel).trace).tail, isWindowing c = false ∧ isGraphics c = false) := by
  obtain ⟨ht, hs⟩ := main_initFails env fuel h
  refine ⟨ht, ?_, ⟨-1, hs, by decide, by decide⟩, ?_, ?_⟩
  · rw [ht]; simp
  · rw [ht]; intro c hc; simp at hc; rcases hc with rfl | rfl | rfl <;> rfl
  · rw [ht]; intro c hc; simp at hc; rcases hc with rfl | rfl <;> exact ⟨rfl, rfl⟩

/-- C2 on the environment in which `glfwInit` returns 0. -/
theorem C2_init_failure_witness :
    (main initFails 3).trace =
      [Call.glfwInit 0, Call.perror "Failed to init GLFW.\n", Call.exit (-1)] :=
  (C2_init_failure initFails 3 rfl).1

/-- C3: when `glfwInit` succeeds and `glfwCreateWindow` returns `NULL`, every
run of `main` is the init call, the three hints, the failed creation,
`perror` and `exit(-1)`: the exit status is non-zero, `glfwTerminate` is never
called, and after the failed creation there is no windowing or graphics call
at all. -/
theorem C3_create_failure (env : Env) (fuel : Nat) (h1 : env.glfwInit ≠ GLFW_FALSE)
    (h2 : env.glfwCreateWindow = NULL) :
    (main env fuel).trace =
      [Call.glfwInit env.glfwInit,
       Call.glfwWindowHint .GLFW_CONTEXT_VERSION_MAJOR (.num 3),
       Call.glfwWindowHint .GLFW_CONTEXT_VERSION_MINOR (.num 3),
       Call.glfwWindowHint .GLFW_OPENGL_PROFILE (.sym .GLFW_OPENGL_CORE_PROFILE),
       Call.glfwCreateWindow 800 600 "LearneOpenGL" 0 0 NULL,
       Call.perror "Failed to init GLFW.\n", Call.exit (-1)] ∧
    (∃ status : Int, (main env fuel).exitStatus = some status ∧ status ≠ 0 ∧
      status % 256 ≠ 0) ∧
    Call.glfwTerminate ∉ (main env fuel).trace ∧
    (∀ c ∈ ((main env fuel).trace).drop 5, isWindowing c = false ∧ isGraphics c = false) := by
  obtain ⟨ht, hs⟩ := main_createFails env fuel h1 h2
  refine ⟨ht, ⟨-1, hs, by decide, by decide⟩, ?_, ?_⟩
  · rw [ht]; simp
  · rw [ht]; intro c hc; simp at hc; rcases hc with rfl | rfl <;> exact ⟨rfl, rfl⟩

/-- C3 on the environment in which window creation fails. -/
theorem C3_create_failure_witness :
    Call.glfwTerminate ∉ (main createFails 3).trace ∧
    (∃ status : Int, (main createFails 3).exitStatus = some status ∧ status ≠ 0 ∧
      status % 256 ≠ 0) :=
  ⟨(C3_create_failure createFails 3 (by decide) rfl).2.2.1,
   (C3_create_failure createFails 3 (by decide) rfl).2.1⟩

/-- C4: the exit status depends on the startup outcome only.  If `glfwInit`
fails or `glfwCreateWindow` returns `NULL`, every run exits with status -1,
which is non-zero also modulo 2^8, and the last two calls are `perror` with
the diagnostic followed by `exit(-1)`.  If both succeed, no run exits with a
status other than 0, and every run whose loop condition reads `true` at some
check within the fuel does exit, with status 0. -/
theorem C4_exit_status (env : Env) :
    ((env.glfwInit = GLFW_FALSE ∨ env.glfwCreateWindow = NULL) →
      ∀ fuel, (main env fuel).exitStatus = some (-1) ∧ ((-1 : Int) % 256 = 255) ∧
        ∃ pre, (main env fuel).trace =
          pre ++ [Call.perror "Failed to init GLFW.\n", Call.exit (-1)]) ∧
    ((env.glfwInit ≠ GLFW_FALSE ∧ env.glfwCreateWindow ≠ NULL) →
      (∀ fuel status, (main env fuel).exitStatus = some status → status = 0) ∧
      (∀ n fuel, checkValue env n = true → n < fuel →
        (main env fuel).exitStatus = some 0)) := by
  constructor
  · intro h fuel
    by_cases h1 : env.glfwInit = GLFW_FALSE
    · obtain ⟨ht, hs⟩ := main_initFails env fuel h1
      exact ⟨hs, by decide, ⟨[Call.glfwInit GLFW_FALSE], by rw [ht]; rfl⟩⟩
    · have h2 : env.glfwCreateWindow = NULL := h.resolve_left h1
      obtain ⟨ht, hs⟩ := main_createFails env fuel h1 h2
      exact ⟨hs, by decide, ⟨((main env fuel).trace).take 5, by rw [ht]; rfl⟩⟩
  · rintro ⟨h1, h2⟩
    constructor
    · intro fuel status hst
      rcases checks_dichotomy env fuel with hall | ⟨n, hn, hfalse, htrue⟩
      · rw [(main_running env fuel h1 h2 hall).2] at hst
        cases hst
      · rw [(main_exits env n fuel h1 h2 hfalse htrue hn).2] at hst
        exact (Option.some.inj hst).symm
    · intro n fuel hn hlt
      rcases checks_dichotomy env fuel with hall | ⟨m, hm, hfalse, htrue⟩
      · rw [hall n hlt] at hn
        cases hn
      · exact (main_exits env m fuel h1 h2 hfalse htrue hm).2

/-- C4 on a failing start and on a run that closes during the second poll. -/
theorem C4_exit_status_witness :
    (main createFails 3).exitStatus = some (-1) ∧ (main (closeAt 1) 3).exitStatus = some 0 :=
  ⟨((C4_exit_status createFails).1 (Or.inr rfl) 3).1,
   ((C4_exit_status (closeAt 1)).2 ⟨by decide, by decide⟩).2 2 3 (by decide) (by decide)⟩

/-- C5: in a run that reaches the frame loop and whose loop condition reads
`true` at some check within the fuel, the trace ends with that check followed
by exactly `glfwDestroyWindow(window)`, `glfwTerminate()`, `exit(0)`; nothing
before that check's return is a destroy or a terminate, and each of the two
occurs exactly once in the whole run. -/
theorem C5_shutdown_order (env : Env) (n fuel : Nat)
    (h1 : env.glfwInit ≠ GLFW_FALSE) (h2 : env.glfwCreateWindow ≠ NULL)
    (htrue : checkValue env n = true) (hlt : n < fuel) :
    ∃ m, m ≤ n ∧
      (main env fuel).trace =
        (setupCalls env ++ iterations env.glfwCreateWindow m ++
          [Call.glfwWindowShouldClose env.glfwCreateWindow true]) ++
        [Call.glfwDestroyWindow env.glfwCreateWindow, Call.glfwTerminate, Call.exit 0] ∧
      (∀ c ∈ setupCalls env ++ iterations env.glfwCreateWindow m ++
          [Call.glfwWindowShouldClose env.glfwCreateWindow true],
        isDestroyWindow c = false ∧ isTerminate c = false) ∧
      ((main env fuel).trace).countP isDestroyWindow = 1 ∧
      ((main env fuel).trace).countP isTerminate = 1 ∧
      (main env fuel).exitStatus = some 0 := by
  rcases checks_dichotomy env fuel with hall | ⟨m, hm, hfalse, hmtrue⟩
  · rw [hall n hlt] at htrue; cases htrue
  · have hmn : m ≤ n := by
      by_contra hcon
      rw [hfalse n (by omega)] at htrue; cases htrue
    obtain ⟨ht, hs⟩ := main_exits env m fuel h1 h2 hfalse hmtrue hm
    have hpre : ∀ c ∈ setupCalls env ++ iterations env.glfwCreateWindow m ++
        [Call.glfwWindowShouldClose env.glfwCreateWindow true],
        isDestroyWindow c = false ∧ isTerminate c = false := by
      intro c hc
      simp only [List.mem_append, List.mem_singleton] at hc
      rcases hc with (hc | hc) | rfl
      · simp only [setupCalls, List.mem_cons, List.mem_nil_iff, or_false] at hc
        rcases hc with rfl | rfl | rfl | rfl | rfl | rfl | rfl | rfl | rfl <;> exact ⟨rfl, rfl⟩
      · rcases mem_iterations hc with rfl | hc
        · exact ⟨rfl, rfl⟩
        · simp only [frameCalls, List.mem_cons, List.mem_nil_iff, or_false] at hc
          rcases hc with rfl | rfl | rfl | rfl <;> exact ⟨rfl, rfl⟩
      · exact ⟨rfl, rfl⟩
    have ht2 : (main env fuel).trace =
        (setupCalls env ++ iterations env.glfwCreateWindow m ++
          [Call.glfwWindowShouldClose env.glfwCreateWindow true]) ++
        [Call.glfwDestroyWindow env.glfwCreateWindow, Call.glfwTerminate, Call.exit 0] := by
      rw [ht]; simp [shutdownCalls]
    refine ⟨m, hmn, ht2, hpre, ?_, ?_, hs⟩
    · rw [ht2, List.countP_append,
        List.countP_eq_zero.mpr (fun c hc => by simp [(hpre c hc).1])]
      rfl
    · rw [ht2, List.countP_append,
        List.countP_eq_zero.mpr (fun c hc => by simp [(hpre c hc).2])]
      rfl

/-- C5 on a run that is closed during the second poll. -/
theorem C5_shutdown_order_witness :
    ∃ m, m ≤ 2 ∧
      (main (closeAt 1) 5).trace =
        (setupCalls (closeAt 1) ++ iterations 4096 m ++
          [Call.glfwWindowShouldClose 4096 true]) ++
        [Call.glfwDestroyWindow 4096, Call.glfwTerminate, Call.exit 0] ∧
      (∀ c ∈ setupCalls (closeAt 1) ++ iterations 4096 m ++
          [Call.glfwWindowShouldClose 4096 true],
        isDestroyWindow c = false ∧ isTerminate c = false) ∧
      ((main (closeAt 1) 5).trace).countP isDestroyWindow = 1 ∧
      ((main (closeAt 1) 5).trace).countP isTerminate = 1 ∧
      (main (closeAt 1) 5).exitStatus = some 0 :=
  C5_shutdown_order (closeAt 1) 2 5 (by decide) (by decide) (by decide) (by decide)

/-- C6: with a successful start, the frame loop of `main` terminates if and
only if the close flag reads `true` at some check.  Every such run is the
setup followed by whole iterations, one per check that read `false`, and
stops at the first check that reads `true` (then the shutdown follows) or
while the fuel lasts; the run has exited exactly when its trace has a check
that returned `true`.  In no run of `main` at all is there a `glfwGetKey` or a
`glfwSetWindowShouldClose` call, and between two checks the flag moves only
when the poll in between moved it. -/
theorem C6_loop_termination (env : Env) :
    ((env.glfwInit ≠ GLFW_FALSE ∧ env.glfwCreateWindow ≠ NULL) →
      ((∃ fuel, (frameLoop false env env.glfwCreateWindow fuel 0 (loopEntry env)).2 = true) ↔
        ∃ n, checkValue env n = true) ∧
      (∀ fuel, ∃ m, (∀ k, k < m → checkValue env k = false) ∧
        (m = fuel ∧
          (main env fuel).trace = setupCalls env ++ iterations env.glfwCreateWindow m ∧
          (main env fuel).exitStatus = none ∨
         m < fuel ∧ checkValue env m = true ∧
          (main env fuel).trace = setupCalls env ++ iterations env.glfwCreateWindow m ++
            Call.glfwWindowShouldClose env.glfwCreateWindow true ::
              shutdownCalls env.glfwCreateWindow ∧
          (main env fuel).exitStatus = some 0)) ∧
      (∀ fuel, (main env fuel).exitStatus = some 0 ↔
        Call.glfwWindowShouldClose env.glfwCreateWindow true ∈ (main env fuel).trace)) ∧
    (∀ fuel, ∀ c ∈ (main env fuel).trace,
      (∀ w k r, c ≠ Call.glfwGetKey w k r) ∧ ∀ w v, c ≠ Call.glfwSetWindowShouldClose w v) ∧
    (∀ k, (env.glfwPollEvents k).close = none → checkValue env (k + 1) = checkValue env k) := by
  have hentry := (loopEntry_fields env).2.1
  have hnot : ∀ m, ∀ c ∈ setupCalls env ++ iterations env.glfwCreateWindow m,
      c ≠ Call.glfwWindowShouldClose env.glfwCreateWindow true ∧
      (∀ w k r, c ≠ Call.glfwGetKey w k r) ∧
      ∀ w v, c ≠ Call.glfwSetWindowShouldClose w v := by
    intro m c hc
    rcases List.mem_append.mp hc with hc | hc
    · simp only [setupCalls, List.mem_cons, List.mem_nil_iff, or_false] at hc
      rcases hc with rfl | rfl | rfl | rfl | rfl | rfl | rfl | rfl | rfl <;> simp
    · rcases mem_iterations hc with rfl | hc
      · simp
      · simp only [frameCalls, List.mem_cons, List.mem_nil_iff, or_false] at hc
        rcases hc with rfl | rfl | rfl | rfl <;> simp
  refine ⟨?_, ?_, ?_⟩
  · rintro ⟨h1, h2⟩
    have hshape : ∀ fuel, ∃ m, (∀ k, k < m → checkValue env k = false) ∧
        (m = fuel ∧
          (main env fuel).trace = setupCalls env ++ iterations env.glfwCreateWindow m ∧
          (main env fuel).exitStatus = none ∨
         m < fuel ∧ checkValue env m = true ∧
          (main env fuel).trace = setupCalls env ++ iterations env.glfwCreateWindow m ++
            Call.glfwWindowShouldClose env.glfwCreateWindow true ::
              shutdownCalls env.glfwCreateWindow ∧
          (main env fuel).exitStatus = some 0) := by
      intro fuel
      rcases checks_dichotomy env fuel with hall | ⟨n, hn, hfalse, htrue⟩
      · obtain ⟨ht, hs⟩ := main_running env fuel h1 h2 hall
        exact ⟨fuel, hall, Or.inl ⟨rfl, ht, hs⟩⟩
      · obtain ⟨ht, hs⟩ := main_exits env n fuel h1 h2 hfalse htrue hn
        exact ⟨n, hfalse, Or.inr ⟨hn, htrue, ht, hs⟩⟩
    refine ⟨⟨?_, ?_⟩, hshape, ?_⟩
    · rintro ⟨fuel, hexit⟩
      rcases checks_dichotomy env fuel with hall | ⟨n, _, _, htrue⟩
      · have := (frameLoop_running env env.glfwCreateWindow fuel 0 (loopEntry env) hentry
          (by simpa using hall)).1
        rw [this] at hexit; cases hexit
      · exact ⟨n, htrue⟩
    · rintro ⟨n, hn⟩
      rcases checks_dichotomy env (n + 1) with hall | ⟨m, hm, hfalse, htrue⟩
      · rw [hall n (Nat.lt_succ_self n)] at hn; cases hn
      · exact ⟨n + 1, (frameLoop_exits env env.glfwCreateWindow m (n + 1) 0 (loopEntry env)
          hentry (by simpa using hfalse) (by simpa using htrue) hm).1⟩
    · intro fuel
      obtain ⟨m, -, ⟨-, ht, hs⟩ | ⟨-, -, ht, hs⟩⟩ := hshape fuel
      · rw [hs, ht]
        constructor
        · intro h; cases h
        · intro h; exact absurd rfl (hnot m _ h).1
      · rw [hs, ht]; simp
  · intro fuel c hc
    by_cases h1 : env.glfwInit = GLFW_FALSE
    · rw [(main_initFails env fuel h1).1] at hc
      simp only [List.mem_cons, List.mem_nil_iff, or_false] at hc
      rcases hc with rfl | rfl | rfl <;> simp
    by_cases h2 : env.glfwCreateWindow = NULL
    · rw [(main_createFails env fuel h1 h2).1] at hc
      simp only [List.mem_cons, List.mem_nil_iff, or_false] at hc
      rcases hc with rfl | rfl | rfl | rfl | rfl | rfl | rfl <;> simp
    obtain ⟨m, tl, ht, -, htl⟩ := main_shape env fuel h1 h2
    rw [ht, ← List.append_assoc] at hc
    rcases List.mem_append.mp hc with hc | hc
    · exact (hnot m c hc).2
    · rcases htl with ⟨rfl, -, -⟩ | ⟨rfl, -, -, -⟩
      · simp at hc
      · simp only [shutdownCalls, List.mem_cons, List.mem_nil_iff, or_false] at hc
        rcases hc with rfl | rfl | rfl | rfl <;> simp
  · intro k hk
    simp [checkValue, hk]

/-- C6 on a run that is closed during the second poll and on one that is
not closed within five checks. -/
theorem C6_loop_termination_witness :
    ((∃ fuel, (frameLoop false (closeAt 1) 4096 fuel 0 (loopEntry (closeAt 1))).2 = true) ↔
      ∃ n, checkValue (closeAt 1) n = true) ∧
    (main (closeAt 1) 5).exitStatus = some 0 ∧ (main (closeAt 9) 5).exitStatus = none :=
  ⟨((C6_loop_termination (closeAt 1)).1 ⟨by decide, by decide⟩).1, by decide, by decide⟩

/-- C7: `processInput` queries the Escape key once; when the state is
`GLFW_PRESS` it calls `glfwSetWindowShouldClose(window, true)` and the close
flag is `true` afterwards, otherwise it makes no further call and the flag is
as before.  In the loop with `processInput` as first statement of the body, an
iteration that starts with the flag down and in which Escape is pressed runs
to its end (one clear, swap and poll) and, unless that poll resets the flag,
the next check reads `true` and the loop exits there, with any fuel of at
least two checks. -/
theorem C7_process_input (env : Env) (i window : Nat) (s : State) :
    (env.glfwGetKey i = GLFW_PRESS →
      (processInput env i window s).closeFlag = true ∧
      (processInput env i window s).trace = s.trace ++
        [Call.glfwGetKey window .GLFW_KEY_ESCAPE GLFW_PRESS,
         Call.glfwSetWindowShouldClose window true]) ∧
    (env.glfwGetKey i ≠ GLFW_PRESS →
      (processInput env i window s).closeFlag = s.closeFlag ∧
      (processInput env i window s).trace = s.trace ++
        [Call.glfwGetKey window .GLFW_KEY_ESCAPE (env.glfwGetKey i)]) ∧
    (s.closeFlag = false → env.glfwGetKey i = GLFW_PRESS →
      (env.glfwPollEvents i).close ≠ some false → ∀ fuel, 2 ≤ fuel →
      (frameLoop true env window fuel i s).2 = true ∧
      (frameLoop true env window fuel i s).1.trace = s.trace ++
        [Call.glfwWindowShouldClose window false,
         Call.glfwGetKey window .GLFW_KEY_ESCAPE GLFW_PRESS,
         Call.glfwSetWindowShouldClose window true,
         Call.glClearColor ⟨7, 2⟩ ⟨13, 2⟩ ⟨17, 2⟩ ⟨10, 1⟩,
         Call.glClear .GL_COLOR_BUFFER_BIT,
         Call.glfwSwapBuffers window,
         Call.glfwPollEvents,
         Call.glfwWindowShouldClose window true]) := by
  refine ⟨?_, ?_, ?_⟩
  · intro h
    simp [processInput, h, glfwSetWindowShouldClose]
  · intro h
    simp [processInput, h]
  · intro hs hkey hpoll fuel hfuel
    obtain ⟨f, rfl⟩ : ∃ f, fuel = f + 2 := ⟨fuel - 2, by omega⟩
    have hflag : ((env.glfwPollEvents i).close).getD true = true := by
      cases hc : (env.glfwPollEvents i).close with
      | none => rfl
      | some b =>
        cases b with
        | false => exact absurd hc hpoll
        | true => rfl
    simp [frameLoop, hs, processInput, hkey, glfwSetWindowShouldClose, hflag, frameCalls]

/-- C7 on a run of the variant in which Escape is pressed in the second
iteration: the loop finishes that iteration and exits at the third check. -/
theorem C7_process_input_witness :
    (frameLoop true (escapeAt 0) 4096 3 0 (loopEntry (escapeAt 0))).2 = true ∧
    (mainWith true (escapeAt 1) 9).trace =
      setupCalls (escapeAt 1) ++
      [Call.glfwWindowShouldClose 4096 false,
       Call.glfwGetKey 4096 .GLFW_KEY_ESCAPE 0,
       Call.glClearColor ⟨7, 2⟩ ⟨13, 2⟩ ⟨17, 2⟩ ⟨10, 1⟩,
       Call.glClear .GL_COLOR_BUFFER_BIT,
       Call.glfwSwapBuffers 4096,
       Call.glfwPollEvents,
       Call.glfwWindowShouldClose 4096 false,
       Call.glfwGetKey 4096 .GLFW_KEY_ESCAPE 1,
       Call.glfwSetWindowShouldClose 4096 true,
       Call.glClearColor ⟨7, 2⟩ ⟨13, 2⟩ ⟨17, 2⟩ ⟨10, 1⟩,
       Call.glClear .GL_COLOR_BUFFER_BIT,
       Call.glfwSwapBuffers 4096,
       Call.glfwPollEvents,
       Call.glfwWindowShouldClose 4096 true,
       Call.glfwDestroyWindow 4096, Call.glfwTerminate, Call.exit 0] :=
  ⟨((C7_process_input (escapeAt 0) 0 4096 (loopEntry (escapeAt 0))).2.2 rfl rfl
      (by decide) 3 (by decide)).1, by decide⟩

/-- C8: in every run of `main`, whatever the libraries return and however
long the run lasts, (1) a `glfwCreateWindow` call comes after a `glfwInit`
that returned success, (2) a call that takes a window takes a non-`NULL`
handle that an earlier `glfwCreateWindow` returned, and no
`glfwDestroyWindow` precedes it, and (3) nothing after `glfwTerminate` is a
windowing call. -/
theorem C8_lifecycle (env : Env) (fuel : Nat) :
    (∀ pre c post, (main env fuel).trace = pre ++ c :: post → isCreateWindow c = true →
      ∃ r, Call.glfwInit r ∈ pre ∧ r ≠ GLFW_FALSE) ∧
    (∀ pre c post w, (main env fuel).trace = pre ++ c :: post → usesWindow c = some w →
      w ≠ NULL ∧
      (∃ width height title monitor share,
        Call.glfwCreateWindow width height title monitor share w ∈ pre) ∧
      ∀ d ∈ pre, isDestroyWindow d = false) ∧
    (∀ pre post, (main env fuel).trace = pre ++ Call.glfwTerminate :: post →
      ∀ c ∈ post, isWindowing c = false) := by
  by_cases h1 : env.glfwInit = GLFW_FALSE
  · obtain ⟨ht, -⟩ := main_initFails env fuel h1
    refine ⟨?_, ?_, ?_⟩
    · intro pre c post hsplit hcw
      have hc := mem_of_split hsplit
      rw [ht] at hc
      simp only [List.mem_cons, List.mem_nil_iff, or_false] at hc
      rcases hc with rfl | rfl | rfl <;> cases hcw
    · intro pre c post w hsplit hw
      have hc := mem_of_split hsplit
      rw [ht] at hc
      simp only [List.mem_cons, List.mem_nil_iff, or_false] at hc
      rcases hc with rfl | rfl | rfl <;> cases hw
    · intro pre post hsplit
      have hc := mem_of_split hsplit
      rw [ht] at hc
      simp at hc
  by_cases h2 : env.glfwCreateWindow = NULL
  · obtain ⟨ht, -⟩ := main_createFails env fuel h1 h2
    refine ⟨?_, ?_, ?_⟩
    · intro pre c post hsplit hcw
      rw [ht] at hsplit
      have hsplit2 : [Call.glfwInit env.glfwInit] ++
          [Call.glfwWindowHint .GLFW_CONTEXT_VERSION_MAJOR (.num 3),
           Call.glfwWindowHint .GLFW_CONTEXT_VERSION_MINOR (.num 3),
           Call.glfwWindowHint .GLFW_OPENGL_PROFILE (.sym .GLFW_OPENGL_CORE_PROFILE),
           Call.glfwCreateWindow 800 600 "LearneOpenGL" 0 0 NULL,
           Call.perror "Failed to init GLFW.\n", Call.exit (-1)] = pre ++ c :: post := by
        rw [← hsplit]; rfl
      have hc : c ∉ [Call.glfwInit env.glfwInit] := by
        intro hmem
        rw [List.mem_singleton] at hmem
        subst hmem; cases hcw
      exact ⟨env.glfwInit, mem_pre_of_split hsplit2 hc (by simp), h1⟩
    · intro pre c post w hsplit hw
      have hc := mem_of_split hsplit
      rw [ht] at hc
      simp only [List.mem_cons, List.mem_nil_iff, or_false] at hc
      rcases hc with rfl | rfl | rfl | rfl | rfl | rfl | rfl <;> cases hw
    · intro pre post hsplit
      have hc := mem_of_split hsplit
      rw [ht] at hc
      simp at hc
  obtain ⟨m, tl, ht, -, htl⟩ := main_shape env fuel h1 h2
  refine ⟨?_, ?_, ?_⟩
  · intro pre c post hsplit hcw
    rw [ht] at hsplit
    have hsplit2 : [Call.glfwInit env.glfwInit] ++ ((setupCalls env).drop 1 ++
        (iterations env.glfwCreateWindow m ++ tl)) = pre ++ c :: post := by
      rw [← hsplit]; simp [setupCalls]
    have hc : c ∉ [Call.glfwInit env.glfwInit] := by
      intro hmem
      rw [List.mem_singleton] at hmem
      subst hmem; cases hcw
    exact ⟨env.glfwInit, mem_pre_of_split hsplit2 hc (by simp), h1⟩
  · intro pre c post w hsplit hw
    rw [ht] at hsplit
    have hsplit2 : (setupCalls env).take 5 ++ ((setupCalls env).drop 5 ++
        iterations env.glfwCreateWindow m ++ tl) = pre ++ c :: post := by
      rw [← hsplit]; simp [setupCalls]
    have hcA : c ∉ (setupCalls env).take 5 := by
      intro hmem
      simp only [setupCalls, List.take_succ_cons, List.take_zero, List.mem_cons,
        List.mem_nil_iff, or_false] at hmem
      rcases hmem with rfl | rfl | rfl | rfl | rfl <;> cases hw
    rcases split_cases _ _ pre post c hsplit2 with hc | ⟨t, hpre, hB⟩
    · exact absurd hc hcA
    have hcreate : Call.glfwCreateWindow 800 600 "LearneOpenGL" 0 0 env.glfwCreateWindow ∈
        pre := by
      rw [hpre]; simp [setupCalls]
    have hA : ∀ d ∈ (setupCalls env).take 5, isDestroyWindow d = false := by
      intro d hd
      simp only [setupCalls, List.take_succ_cons, List.take_zero, List.mem_cons,
        List.mem_nil_iff, or_false] at hd
      rcases hd with rfl | rfl | rfl | rfl | rfl <;> rfl
    rcases htl with ⟨rfl, -, -⟩ | ⟨rfl, -, -, -⟩
    · -- the run has not left the loop
      have hmemB : ∀ d, d ∈ t ++ c :: post →
          d ∈ (setupCalls env).drop 5 ++ iterations env.glfwCreateWindow m ++
            [Call.glfwWindowShouldClose env.glfwCreateWindow true] := by
        intro d hd
        rw [← hB] at hd
        simp only [List.append_nil] at hd
        exact List.mem_append_left _ hd
      have hw2 := (after_create_facts env m c (hmemB c (by simp))).2.2 w hw
      refine ⟨by rw [hw2]; exact h2, ⟨_, _, _, _, _, by rw [hw2]; exact hcreate⟩, ?_⟩
      intro d hd
      rw [hpre] at hd
      rcases List.mem_append.mp hd with hd | hd
      · exact hA d hd
      · exact (after_create_facts env m d (hmemB d (List.mem_append_left _ hd))).1
    · -- the run has left the loop and shut down
      have hB2 : ((setupCalls env).drop 5 ++ iterations env.glfwCreateWindow m ++
          [Call.glfwWindowShouldClose env.glfwCreateWindow true]) ++
          shutdownCalls env.glfwCreateWindow = t ++ c :: post := by
        rw [← hB]; simp
      rcases split_strong _ _ t post c hB2 with ⟨u, hX⟩ | ⟨u, ht2, hY⟩
      · -- `c` lies before the shutdown calls
        have hmemX : ∀ d, d ∈ t ++ c :: u →
            d ∈ (setupCalls env).drop 5 ++ iterations env.glfwCreateWindow m ++
              [Call.glfwWindowShouldClose env.glfwCreateWindow true] := by
          intro d hd; rw [hX]; exact hd
        have hw2 := (after_create_facts env m c (hmemX c (by simp))).2.2 w hw
        refine ⟨by rw [hw2]; exact h2, ⟨_, _, _, _, _, by rw [hw2]; exact hcreate⟩, ?_⟩
        intro d hd
        rw [hpre] at hd
        rcases List.mem_append.mp hd with hd | hd
        · exact hA d hd
        · exact (after_create_facts env m d (hmemX d (List.mem_append_left _ hd))).1
      · -- `c` lies among the shutdown calls: it is the destroy call
        have hu : u = [] ∧ c = Call.glfwDestroyWindow env.glfwCreateWindow := by
          rcases u with _ | ⟨a, _ | ⟨b, _ | ⟨e, u⟩⟩⟩
          · simp only [shutdownCalls, List.nil_append, List.cons.injEq] at hY
            exact ⟨rfl, hY.1.symm⟩
          · simp only [shutdownCalls, List.cons_append, List.nil_append,
              List.cons.injEq] at hY
            obtain ⟨-, hc2, -⟩ := hY
            subst hc2; cases hw
          · simp only [shutdownCalls, List.cons_append, List.nil_append,
              List.cons.injEq] at hY
            obtain ⟨-, -, hc2, -⟩ := hY
            subst hc2; cases hw
          · simp [shutdownCalls] at hY
        obtain ⟨rfl, rfl⟩ := hu
        simp only [usesWindow, Option.some.injEq] at hw
        refine ⟨by rw [← hw]; exact h2, ⟨_, _, _, _, _, by rw [← hw]; exact hcreate⟩, ?_⟩
        intro d hd
        rw [hpre, ht2] at hd
        simp only [List.append_nil] at hd
        rcases List.mem_append.mp hd with hd | hd
        · exact hA d hd
        · exact (after_create_facts env m d hd).1
  · intro pre post hsplit
    rw [ht] at hsplit
    have hA : ∀ d ∈ (setupCalls env).take 5, isTerminate d = false := by
      intro d hd
      simp only [setupCalls, List.take_succ_cons, List.take_zero, List.mem_cons,
        List.mem_nil_iff, or_false] at hd
      rcases hd with rfl | rfl | rfl | rfl | rfl <;> rfl
    rcases htl with ⟨rfl, -, -⟩ | ⟨rfl, -, -, -⟩
    · -- the run has not left the loop: there is no terminate call
      have hmem : Call.glfwTerminate ∈ (setupCalls env).take 5 ++
          ((setupCalls env).drop 5 ++ iterations env.glfwCreateWindow m ++
            [Call.glfwWindowShouldClose env.glfwCreateWindow true]) := by
        have h0 := mem_of_split hsplit
        simp only [List.append_nil] at h0
        have h3 : setupCalls env = (setupCalls env).take 5 ++ (setupCalls env).drop 5 :=
          (List.take_append_drop 5 _).symm
        rw [h3, List.append_assoc] at h0
        rcases List.mem_append.mp h0 with h | h
        · exact List.mem_append_left _ h
        · exact List.mem_append_right _ (List.mem_append_left _ h)
      rcases List.mem_append.mp hmem with h | h
      · exact absurd (hA _ h) (by simp [isTerminate])
      · exact absurd (after_create_facts env m _ h).2.1 (by simp [isTerminate])
    · have hsplit2 : ((setupCalls env).take 5 ++
          ((setupCalls env).drop 5 ++ iterations env.glfwCreateWindow m ++
            [Call.glfwWindowShouldClose env.glfwCreateWindow true]) ++
          [Call.glfwDestroyWindow env.glfwCreateWindow]) ++
          [Call.glfwTerminate, Call.exit 0] = pre ++ Call.glfwTerminate :: post := by
        rw [← hsplit]; simp [setupCalls, shutdownCalls]
      rcases split_strong _ _ pre post _ hsplit2 with ⟨u, hX⟩ | ⟨u, -, hY⟩
      · have hmem : Call.glfwTerminate ∈ (setupCalls env).take 5 ++
            ((setupCalls env).drop 5 ++ iterations env.glfwCreateWindow m ++
              [Call.glfwWindowShouldClose env.glfwCreateWindow true]) ++
            [Call.glfwDestroyWindow env.glfwCreateWindow] := by
          rw [hX]; simp
        rcases List.mem_append.mp hmem with h | h
        · rcases List.mem_append.mp h with h | h
          · exact absurd (hA _ h) (by simp [isTerminate])
          · exact absurd (after_create_facts env m _ h).2.1 (by simp [isTerminate])
        · simp at h
      · rcases u with _ | ⟨a, _ | ⟨b, u⟩⟩
        · simp only [List.nil_append, List.cons.injEq, true_and] at hY
          intro c hc
          rw [← hY] at hc
          simp only [List.mem_singleton] at hc
          subst hc; rfl
        · simp at hY
        · simp at hY

/-- C8 checked on a run that is closed during the second poll: the window
calls of the finished run name the created handle, and the call after
`glfwTerminate` is `exit`. -/
theorem C8_lifecycle_witness :
    (∃ r, Call.glfwInit r ∈ ((main (closeAt 1) 5).trace).take 4 ∧ r ≠ GLFW_FALSE) ∧
    (∀ c ∈ ((main (closeAt 1) 5).trace).drop 22, isWindowing c = false) :=
  ⟨(C8_lifecycle (closeAt 1) 5).1 (((main (closeAt 1) 5).trace).take 4)
      (Call.glfwCreateWindow 800 600 "LearneOpenGL" 0 0 4096)
      (((main (closeAt 1) 5).trace).drop 5) (by decide) rfl,
   (C8_lifecycle (closeAt 1) 5).2.2 (((main (closeAt 1) 5).trace).take 21)
      (((main (closeAt 1) 5).trace).drop 22) (by decide)⟩

/-- C9: when the loop condition reads `false` at its first `n` checks and
`true` at the next, and the fuel reaches that check, the trace of `main` is
the setup, then `n` times the block "check returning `false`,
`glClearColor(0.07, 0.13, 0.17, 1.0)`, `glClear(GL_COLOR_BUFFER_BIT)`,
`glfwSwapBuffers(window)`, `glfwPollEvents()`", then the check returning
`true`, then the shutdown calls.  Without the checks the loop part is `n`
repetitions of the four body calls, and for `n = 0` no call of the trace is
a clear, a swap or a poll.  The calls that `framebuffer_size_callback` issues
while the library runs it inside a poll are not calls of the loop; they are
one `glViewport(0, 0, width, height)` per resize event delivered. -/
theorem C9_frame_sequence (env : Env) (n fuel : Nat)
    (h1 : env.glfwInit ≠ GLFW_FALSE) (h2 : env.glfwCreateWindow ≠ NULL)
    (hall : ∀ k, k < n → checkValue env k = false) (htrue : checkValue env n = true)
    (hlt : n < fuel) :
    (main env fuel).trace =
      setupCalls env ++
      ((List.replicate n
        [Call.glfwWindowShouldClose env.glfwCreateWindow false,
         Call.glClearColor ⟨7, 2⟩ ⟨13, 2⟩ ⟨17, 2⟩ ⟨10, 1⟩,
         Call.glClear .GL_COLOR_BUFFER_BIT,
         Call.glfwSwapBuffers env.glfwCreateWindow,
         Call.glfwPollEvents]).flatten ++
       [Call.glfwWindowShouldClose env.glfwCreateWindow true]) ++
      [Call.glfwDestroyWindow env.glfwCreateWindow, Call.glfwTerminate, Call.exit 0] ∧
    ((List.replicate n
        [Call.glfwWindowShouldClose env.glfwCreateWindow false,
         Call.glClearColor ⟨7, 2⟩ ⟨13, 2⟩ ⟨17, 2⟩ ⟨10, 1⟩,
         Call.glClear .GL_COLOR_BUFFER_BIT,
         Call.glfwSwapBuffers env.glfwCreateWindow,
         Call.glfwPollEvents]).flatten ++
       [Call.glfwWindowShouldClose env.glfwCreateWindow true]).filter
        (fun c => !isShouldClose c) =
      (List.replicate n
        [Call.glClearColor ⟨7, 2⟩ ⟨13, 2⟩ ⟨17, 2⟩ ⟨10, 1⟩,
         Call.glClear .GL_COLOR_BUFFER_BIT,
         Call.glfwSwapBuffers env.glfwCreateWindow,
         Call.glfwPollEvents]).flatten ∧
    (n = 0 → ∀ c ∈ (main env fuel).trace,
      c ≠ Call.glClearColor ⟨7, 2⟩ ⟨13, 2⟩ ⟨17, 2⟩ ⟨10, 1⟩ ∧
      c ≠ Call.glClear .GL_COLOR_BUFFER_BIT ∧
      c ≠ Call.glfwSwapBuffers env.glfwCreateWindow ∧ c ≠ Call.glfwPollEvents) ∧
    (main env fuel).nested = nestedCalls env n := by
  obtain ⟨ht, _⟩ := main_exits env n fuel h1 h2 hall htrue hlt
  have hf := filter_iterations env.glfwCreateWindow n
  simp only [iterations, frameCalls] at hf ht
  refine ⟨?_, ?_, ?_, main_exits_nested env n fuel h1 h2 hall htrue hlt⟩
  · rw [ht]; simp [shutdownCalls]
  · rw [List.filter_append, hf]; simp [isShouldClose]
  · intro hn c hc
    subst hn
    rw [ht] at hc
    simp only [setupCalls, shutdownCalls, List.replicate_zero, List.flatten_nil,
      List.append_nil, List.mem_append, List.mem_cons, List.mem_nil_iff, or_false] at hc
    rcases hc with (rfl | rfl | rfl | rfl | rfl | rfl | rfl | rfl | rfl) |
      rfl | rfl | rfl | rfl <;> simp

/-- C9 on a run that is closed during the second poll: two frames. -/
theorem C9_frame_sequence_witness :
    (main (closeAt 1) 5).trace =
      [Call.glfwInit 1,
       Call.glfwWindowHint .GLFW_CONTEXT_VERSION_MAJOR (.num 3),
       Call.glfwWindowHint .GLFW_CONTEXT_VERSION_MINOR (.num 3),
       Call.glfwWindowHint .GLFW_OPENGL_PROFILE (.sym .GLFW_OPENGL_CORE_PROFILE),
       Call.glfwCreateWindow 800 600 "LearneOpenGL" 0 0 4096,
       Call.glfwMakeContextCurrent 4096,
       Call.glfwSetFramebufferSizeCallback 4096 .framebuffer_size_callback,
       Call.gladLoadGL,
       Call.glViewport 0 0 800 600,
       Call.glfwWindowShouldClose 4096 false,
       Call.glClearColor ⟨7, 2⟩ ⟨13, 2⟩ ⟨17, 2⟩ ⟨10, 1⟩,
       Call.glClear .GL_COLOR_BUFFER_BIT,
       Call.glfwSwapBuffers 4096,
       Call.glfwPollEvents,
       Call.glfwWindowShouldClose 4096 false,
       Call.glClearColor ⟨7, 2⟩ ⟨13, 2⟩ ⟨17, 2⟩ ⟨10, 1⟩,
       Call.glClear .GL_COLOR_BUFFER_BIT,
       Call.glfwSwapBuffers 4096,
       Call.glfwPollEvents,
       Call.glfwWindowShouldClose 4096 true,
       Call.glfwDestroyWindow 4096, Call.glfwTerminate, Call.exit 0] :=
  (C9_frame_sequence (closeAt 1) 2 5 (by decide) (by decide) (by decide) (by decide)
    (by decide)).1

/-- C10: on every run in which `glfwInit` and `glfwCreateWindow` succeed, the
trace starts with `glfwInit`, the three context hints, `glfwCreateWindow(800,
600, "LearneOpenGL")`, `glfwMakeContextCurrent`, the registration of
`framebuffer_size_callback`, `gladLoadGL` and `glViewport(0, 0, 800, 600)`,
and what follows is empty or starts with the first check of the loop
condition.  So the hints precede the creation, `gladLoadGL` is called exactly
once, after `glfwMakeContextCurrent` and before every other graphics call,
and the initial viewport has the size the window was requested with. -/
theorem C10_startup_sequence (env : Env) (fuel : Nat)
    (h1 : env.glfwInit ≠ GLFW_FALSE) (h2 : env.glfwCreateWindow ≠ NULL) :
    (∃ rest, (main env fuel).trace =
        [Call.glfwInit env.glfwInit,
         Call.glfwWindowHint .GLFW_CONTEXT_VERSION_MAJOR (.num 3),
         Call.glfwWindowHint .GLFW_CONTEXT_VERSION_MINOR (.num 3),
         Call.glfwWindowHint .GLFW_OPENGL_PROFILE (.sym .GLFW_OPENGL_CORE_PROFILE),
         Call.glfwCreateWindow WND_WIDTH WND_HEIGHT "LearneOpenGL" NULL NULL
           env.glfwCreateWindow,
         Call.glfwMakeContextCurrent env.glfwCreateWindow,
         Call.glfwSetFramebufferSizeCallback env.glfwCreateWindow
           .framebuffer_size_callback,
         Call.gladLoadGL,
         Call.glViewport 0 0 WND_WIDTH WND_HEIGHT] ++ rest ∧
      (rest = [] ∧ fuel = 0 ∨
        ∃ b tl, rest = Call.glfwWindowShouldClose env.glfwCreateWindow b :: tl)) ∧
    WND_WIDTH = 800 ∧ WND_HEIGHT = 600 ∧
    ((main env fuel).trace).count Call.gladLoadGL = 1 ∧
    (∀ pre c post, (main env fuel).trace = pre ++ c :: post → isGraphics c = true →
      c = Call.gladLoadGL ∨ Call.gladLoadGL ∈ pre) ∧
    (∀ pre post, (main env fuel).trace = pre ++ Call.gladLoadGL :: post →
      Call.glfwMakeContextCurrent env.glfwCreateWindow ∈ pre) ∧
    (∀ pre c post, (main env fuel).trace = pre ++ c :: post → isCreateWindow c = true →
      Call.glfwWindowHint .GLFW_CONTEXT_VERSION_MAJOR (.num 3) ∈ pre ∧
      Call.glfwWindowHint .GLFW_CONTEXT_VERSION_MINOR (.num 3) ∈ pre ∧
      Call.glfwWindowHint .GLFW_OPENGL_PROFILE (.sym .GLFW_OPENGL_CORE_PROFILE) ∈ pre) := by
  obtain ⟨m, tl, ht, -, htl⟩ := main_shape env fuel h1 h2
  have hrest : iterations env.glfwCreateWindow m ++ tl = [] ∧ fuel = 0 ∨
      ∃ b r, iterations env.glfwCreateWindow m ++ tl =
        Call.glfwWindowShouldClose env.glfwCreateWindow b :: r := by
    cases m with
    | zero =>
      rcases htl with ⟨rfl, hm, _⟩ | ⟨rfl, _, _⟩
      · left; exact ⟨by simp [iterations], hm.symm⟩
      · right; exact ⟨true, shutdownCalls env.glfwCreateWindow, by simp [iterations]⟩
    | succ k => right; exact ⟨false, _, by rw [iterations_succ]; rfl⟩
  have hload : Call.gladLoadGL ∉ iterations env.glfwCreateWindow m ++ tl := by
    intro hmem
    rcases List.mem_append.mp hmem with hmem | hmem
    · rcases mem_iterations hmem with h | h
      · cases h
      · simp [frameCalls] at h
    · rcases htl with ⟨rfl, _, _⟩ | ⟨rfl, _, _⟩
      · simp at hmem
      · simp [shutdownCalls] at hmem
  refine ⟨⟨_, by rw [ht]; rfl, hrest⟩, rfl, rfl, ?_, ?_, ?_, ?_⟩
  · rw [ht, List.count_append, List.count_eq_zero.mpr hload]
    simp [setupCalls]
  · intro pre c post hsplit hg
    rw [ht] at hsplit
    have hsplit2 : (setupCalls env).take 7 ++
        (Call.gladLoadGL :: Call.glViewport 0 0 800 600 ::
          (iterations env.glfwCreateWindow m ++ tl)) = pre ++ c :: post := by
      rw [← hsplit]; simp [setupCalls]
    rcases split_cases _ _ pre post c hsplit2 with hc | ⟨t, hpre, hB⟩
    · simp only [setupCalls, List.take_succ_cons, List.take_zero, List.mem_cons,
        List.mem_nil_iff, or_false] at hc
      rcases hc with rfl | rfl | rfl | rfl | rfl | rfl | rfl <;> cases hg
    · cases t with
      | nil =>
        simp only [List.nil_append, List.cons.injEq] at hB
        exact Or.inl hB.1.symm
      | cons x t =>
        simp only [List.cons_append, List.cons.injEq] at hB
        right; rw [hpre, ← hB.1]; simp
  · intro pre post hsplit
    rw [ht] at hsplit
    have hsplit2 : (setupCalls env).take 7 ++
        (Call.gladLoadGL :: Call.glViewport 0 0 800 600 ::
          (iterations env.glfwCreateWindow m ++ tl)) = pre ++ Call.gladLoadGL :: post := by
      rw [← hsplit]; simp [setupCalls]
    exact mem_pre_of_split hsplit2 (by simp [setupCalls]) (by simp [setupCalls])
  · intro pre c post hsplit hcw
    rw [ht] at hsplit
    have hsplit2 : (setupCalls env).take 4 ++ ((setupCalls env).drop 4 ++
        (iterations env.glfwCreateWindow m ++ tl)) = pre ++ c :: post := by
      rw [← hsplit]; simp [setupCalls]
    have hc : c ∉ (setupCalls env).take 4 := by
      intro hmem
      simp only [setupCalls, List.take_succ_cons, List.take_zero, List.mem_cons,
        List.mem_nil_iff, or_false] at hmem
      rcases hmem with rfl | rfl | rfl | rfl <;> cases hcw
    exact ⟨mem_pre_of_split hsplit2 hc (by simp [setupCalls]),
      mem_pre_of_split hsplit2 hc (by simp [setupCalls]),
      mem_pre_of_split hsplit2 hc (by simp [setupCalls])⟩

/-- C10 on a run that is closed during the first poll. -/
theorem C10_startup_sequence_witness :
    ((main (closeAt 0) 4).trace).take 10 =
        [Call.glfwInit 1,
         Call.glfwWindowHint .GLFW_CONTEXT_VERSION_MAJOR (.num 3),
         Call.glfwWindowHint .GLFW_CONTEXT_VERSION_MINOR (.num 3),
         Call.glfwWindowHint .GLFW_OPENGL_PROFILE (.sym .GLFW_OPENGL_CORE_PROFILE),
         Call.glfwCreateWindow 800 600 "LearneOpenGL" 0 0 4096,
         Call.glfwMakeContextCurrent 4096,
         Call.glfwSetFramebufferSizeCallback 4096 .framebuffer_size_callback,
         Call.gladLoadGL,
         Call.glViewport 0 0 800 600,
         Call.glfwWindowShouldClose 4096 false] ∧
    ((main (closeAt 0) 4).trace).count Call.gladLoadGL = 1 :=
  ⟨by decide, (C10_startup_sequence (closeAt 0) 4 (by decide) (by decide)).2.2.2.1⟩

end SampleWindow
